import Mathlib

/-!
Shallow embedding of the WALEMCP on-chain programs
(src/contracts/mcp/program.rs and src/contracts/token/wale_token.rs)
and proofs about their specification.

Modelling conventions:
* `u64` values are `Nat`; overflow is explicit via `% u64Size` for the
  unchecked `+= 1`, and via `checked_add` / `checked_sub` for the
  checked arithmetic in the token program.
* `i64` timestamps are `Int`.
* Rust `String` / `Vec<u8>` fields are byte lists (`List UInt8`); the
  Rust `len()` is byte length, i.e. `List.length`.
* `Pubkey` is abstracted as `Nat` (only equality and the fixed 32-byte
  encoded width matter to the program logic).
* Each instruction handler is a pure function from its inputs (the
  caller-verified signer key, the touched accounts, the clock value
  and the outcome of any delegated CPI call) to `Except` of an error
  or the new account state plus the emitted event.  The hosting
  runtime rolls back on error, which the `apply…` wrappers make
  explicit by returning the pre-state on `.error`.
* Anchor account `constraint` checks run before the handler body and
  are modelled as a `.constraintViolation` error; a failing delegated
  CPI (`token::mint_to` / `token::burn`) propagates as
  `.externalCallFailed`.
-/

namespace WaleMcp

/-- Public keys are abstracted: only equality matters. -/
abbrev Pubkey := Nat

/-- Byte strings: Rust String / Vec of u8 contents. -/
abbrev Bytes := List UInt8

/-- Number of values of a u64, i.e. 2^64. -/
def u64Size : Nat := 2 ^ 64

/-- Rust u64 checked_add: the sum when it fits in a u64, else none. -/
def checked_add (a b : Nat) : Option Nat :=
  if a + b < u64Size then some (a + b) else none

/-- Rust u64 checked_sub: the difference when no underflow, else none. -/
def checked_sub (a b : Nat) : Option Nat :=
  if b ≤ a then some (a - b) else none

namespace Mcp

/-- Error codes of the mcp program (program.rs `ErrorCode`). -/
inductive ErrorCode where
  | TemplateTooLong
  | NameTooLong
  | VersionTooLong
  | CategoryTooLong
  | TaskIdTooLong
  | HashTooLong
  | MetadataTooLarge
  | InvalidExecutionStatus
  deriving DecidableEq

/-- Failure of an mcp instruction: a program error code, or an Anchor
account `constraint` rejection (checked before the handler runs). -/
inductive ProgErr where
  | program (e : ErrorCode)
  | constraintViolation
  deriving DecidableEq

/-- Execution status (program.rs `ExecutionStatus`). -/
inductive ExecutionStatus where
  | InProgress
  | Success
  | Failure
  deriving DecidableEq

/-- PDA bump for a template account (program.rs `TemplateBumps`). -/
structure TemplateBumps where
  template : Nat
  deriving DecidableEq

/-- Template account state (program.rs `TemplateAccount`). -/
structure TemplateAccount where
  template_id : Bytes
  template_name : Bytes
  template_version : Bytes
  category : Bytes
  creator : Pubkey
  metadata : Bytes
  created_at : Int
  updated_at : Int
  usage_count : Nat
  is_active : Bool
  bumps : TemplateBumps
  deriving DecidableEq

/-- PDA bump for an execution account (program.rs `ExecutionBumps`). -/
structure ExecutionBumps where
  execution : Nat
  deriving DecidableEq

/-- Execution account state (program.rs `ExecutionAccount`). -/
structure ExecutionAccount where
  task_id : Bytes
  template : Pubkey
  user : Pubkey
  inputs_hash : Bytes
  outputs_hash : Bytes
  status : ExecutionStatus
  started_at : Int
  completed_at : Int
  bumps : ExecutionBumps
  deriving DecidableEq

/-- Event emitted by initialize_template (program.rs `TemplateCreatedEvent`). -/
structure TemplateCreatedEvent where
  template_id : Bytes
  creator : Pubkey
  timestamp : Int
  deriving DecidableEq

/-- Event emitted by update_template (program.rs `TemplateUpdatedEvent`). -/
structure TemplateUpdatedEvent where
  template_id : Bytes
  updater : Pubkey
  timestamp : Int
  deriving DecidableEq

/-- Event emitted by record_execution (program.rs `ExecutionRecordedEvent`). -/
structure ExecutionRecordedEvent where
  task_id : Bytes
  template_id : Bytes
  user : Pubkey
  status : ExecutionStatus
  timestamp : Int
  deriving DecidableEq

/-- Event emitted by update_execution (program.rs `ExecutionUpdatedEvent`). -/
structure ExecutionUpdatedEvent where
  task_id : Bytes
  status : ExecutionStatus
  timestamp : Int
  deriving DecidableEq

/-- TemplateAccount::space from program.rs, verbatim: fixed-size fields
plus variable-size fields (template_id at actual length, the mutable
strings and metadata at their declared maxima). -/
def TemplateAccount.space (template_id : Bytes) : Nat :=
  let fixed_size := 8 +    -- Discriminator
      32 +                 -- Pubkey
      8 +                  -- Created timestamp
      8 +                  -- Updated timestamp
      8 +                  -- Usage count
      1 +                  -- Is active
      1 +                  -- Bump
      4                    -- Vec header for metadata
  let variable_size := 4 + template_id.length +  -- template_id (String)
      4 + 100 +            -- template_name (allocate max)
      4 + 20 +             -- template_version (allocate max)
      4 + 20 +             -- category (allocate max)
      1024                 -- metadata (allocate max)
  fixed_size + variable_size

/-- ExecutionAccount::space from program.rs, verbatim: fixed-size fields
plus variable-size fields (task_id at actual length, both hashes at the
declared maximum of 64). -/
def ExecutionAccount.space (task_id : Bytes) : Nat :=
  let fixed_size := 8 +    -- Discriminator
      32 +                 -- Template PDA
      32 +                 -- User pubkey
      4 +                  -- Status (enum)
      8 +                  -- Started timestamp
      8 +                  -- Completed timestamp
      1                    -- Bump
  let variable_size := 4 + task_id.length +  -- task_id (String)
      4 + 64 +             -- inputs_hash (allocate max)
      4 + 64               -- outputs_hash (allocate max)
  fixed_size + variable_size

/-- initialize_template handler (program.rs lines 12-50): validates the
five length bounds in order, then builds the fresh template account and
the TemplateCreated event. -/
def init_template (template_id template_name template_version category : Bytes)
    (creator : Pubkey) (metadata : Bytes) (now : Int) (bump : Nat) :
    Except ProgErr (TemplateAccount × TemplateCreatedEvent) :=
  if 64 < template_id.length then .error (.program .TemplateTooLong)
  else if 100 < template_name.length then .error (.program .NameTooLong)
  else if 20 < template_version.length then .error (.program .VersionTooLong)
  else if 20 < category.length then .error (.program .CategoryTooLong)
  else if 1024 < metadata.length then .error (.program .MetadataTooLarge)
  else
    let t : TemplateAccount :=
      { template_id := template_id
        template_name := template_name
        template_version := template_version
        category := category
        creator := creator
        metadata := metadata
        created_at := now
        updated_at := now
        usage_count := 0
        is_active := true
        bumps := ⟨bump⟩ }
    .ok (t, { template_id := t.template_id, creator := t.creator, timestamp := t.created_at })

/-- record_execution handler (program.rs lines 53-96): validates the
three length bounds, builds the execution account (completed_at is the
clock when the initial status is terminal, else 0), increments the
template usage_count (unchecked u64 `+= 1`, i.e. wrapping) and
refreshes the template updated_at. -/
def record_execution (task_id inputs_hash outputs_hash : Bytes)
    (status : ExecutionStatus) (templateKey : Pubkey) (user : Pubkey)
    (template : TemplateAccount) (now : Int) (bump : Nat) :
    Except ProgErr (ExecutionAccount × TemplateAccount × ExecutionRecordedEvent) :=
  if 64 < task_id.length then .error (.program .TaskIdTooLong)
  else if 64 < inputs_hash.length then .error (.program .HashTooLong)
  else if 64 < outputs_hash.length then .error (.program .HashTooLong)
  else
    let execution : ExecutionAccount :=
      { task_id := task_id
        template := templateKey
        user := user
        inputs_hash := inputs_hash
        outputs_hash := outputs_hash
        status := status
        started_at := now
        completed_at :=
          if status = .Success ∨ status = .Failure then now else 0
        bumps := ⟨bump⟩ }
    let template2 :=
      { template with
          usage_count := (template.usage_count + 1) % u64Size
          updated_at := now }
    .ok (execution, template2,
      { task_id := execution.task_id
        template_id := template2.template_id
        user := execution.user
        status := execution.status
        timestamp := execution.started_at })

/-- update_execution handler (program.rs lines 99-130) together with the
Anchor constraint `execution.user == user.key()` of the UpdateExecution
accounts struct: requires the current status to be InProgress, applies
the new status, optionally validates and replaces outputs_hash, and
stamps completed_at with the clock when the new status is terminal. -/
def update_execution (signer : Pubkey) (execution : ExecutionAccount)
    (status : ExecutionStatus) (outputs_hash : Option Bytes) (now : Int) :
    Except ProgErr (ExecutionAccount × ExecutionUpdatedEvent) :=
  if signer ≠ execution.user then .error .constraintViolation
  else if execution.status ≠ .InProgress then .error (.program .InvalidExecutionStatus)
  else
    let e1 := { execution with status := status }
    match outputs_hash with
    | some h =>
      if 64 < h.length then .error (.program .HashTooLong)
      else
        let e2 := { e1 with outputs_hash := h }
        let e3 :=
          if status = .Success ∨ status = .Failure
          then { e2 with completed_at := now } else e2
        .ok (e3, { task_id := e3.task_id, status := e3.status, timestamp := now })
    | none =>
      let e3 :=
        if status = .Success ∨ status = .Failure
        then { e1 with completed_at := now } else e1
      .ok (e3, { task_id := e3.task_id, status := e3.status, timestamp := now })

/-- The optional template_name step of update_template (program.rs
lines 143-146): validate then replace when present. -/
def upd_name (t : TemplateAccount) : Option Bytes → Except ProgErr TemplateAccount
  | none => .ok t
  | some v =>
    if 100 < v.length then .error (.program .NameTooLong)
    else .ok { t with template_name := v }

/-- The optional template_version step of update_template (program.rs
lines 148-151). -/
def upd_version (t : TemplateAccount) : Option Bytes → Except ProgErr TemplateAccount
  | none => .ok t
  | some v =>
    if 20 < v.length then .error (.program .VersionTooLong)
    else .ok { t with template_version := v }

/-- The optional metadata step of update_template (program.rs
lines 153-156). -/
def upd_metadata (t : TemplateAccount) : Option Bytes → Except ProgErr TemplateAccount
  | none => .ok t
  | some v =>
    if 1024 < v.length then .error (.program .MetadataTooLarge)
    else .ok { t with metadata := v }

/-- The optional is_active step of update_template (program.rs
lines 158-160): no validation. -/
def upd_active (t : TemplateAccount) : Option Bool → TemplateAccount
  | none => t
  | some b => { t with is_active := b }

/-- update_template handler (program.rs lines 133-171) together with the
Anchor constraint `template.creator == creator.key()`: each provided
optional field is validated and replaced in order, updated_at is always
refreshed, and a TemplateUpdated event is emitted. -/
def update_template (signer : Pubkey) (template : TemplateAccount)
    (template_name template_version metadata : Option Bytes)
    (is_active : Option Bool) (now : Int) :
    Except ProgErr (TemplateAccount × TemplateUpdatedEvent) :=
  if signer ≠ template.creator then .error .constraintViolation
  else
    match upd_name template template_name with
    | .error e => .error e
    | .ok t1 =>
      match upd_version t1 template_version with
      | .error e => .error e
      | .ok t2 =>
        match upd_metadata t2 metadata with
        | .error e => .error e
        | .ok t3 =>
          let t4 := upd_active t3 is_active
          let t5 := { t4 with updated_at := now }
          .ok (t5, { template_id := t5.template_id, updater := signer, timestamp := now })

/-- Caller context of one update_execution invocation. -/
structure UpdCall where
  signer : Pubkey
  status : ExecutionStatus
  outputs_hash : Option Bytes
  now : Int

/-- The committed execution state after one update_execution call: the
new state on success, the unchanged pre-state on any error (host
rollback). -/
def applyUpd (e : ExecutionAccount) (c : UpdCall) : ExecutionAccount :=
  match update_execution c.signer e c.status c.outputs_hash c.now with
  | .ok (e2, _) => e2
  | .error _ => e

/-- Caller context of one record_execution invocation against a given
template. -/
structure RecordCall where
  task_id : Bytes
  inputs_hash : Bytes
  outputs_hash : Bytes
  status : ExecutionStatus
  templateKey : Pubkey
  user : Pubkey
  now : Int
  bump : Nat

/-- The length bounds record_execution enforces; a record_execution call
succeeds exactly when they hold (there is no other failure path). -/
def validRecordCall (c : RecordCall) : Prop :=
  c.task_id.length ≤ 64 ∧ c.inputs_hash.length ≤ 64 ∧ c.outputs_hash.length ≤ 64

instance (c : RecordCall) : Decidable (validRecordCall c) := by
  unfold validRecordCall; infer_instance

/-- The committed template state after one record_execution call: the
updated template on success, the unchanged pre-state on any error. -/
def applyRecord (t : TemplateAccount) (c : RecordCall) : TemplateAccount :=
  match record_execution c.task_id c.inputs_hash c.outputs_hash c.status
      c.templateKey c.user t c.now c.bump with
  | .ok (_, t2, _) => t2
  | .error _ => t

/-- Caller context of one update_template invocation. -/
structure TemplateUpdCall where
  signer : Pubkey
  template_name : Option Bytes
  template_version : Option Bytes
  metadata : Option Bytes
  is_active : Option Bool
  now : Int

/-- The committed template state after one update_template call: the
new state on success, the unchanged pre-state on any error. -/
def applyTemplateUpd (t : TemplateAccount) (c : TemplateUpdCall) : TemplateAccount :=
  match update_template c.signer t c.template_name c.template_version
      c.metadata c.is_active c.now with
  | .ok (t2, _) => t2
  | .error _ => t

end Mcp

namespace Wale

/-- Error codes of the wale_token program (wale_token.rs `ErrorCode`). -/
inductive ErrorCode where
  | UnauthorizedMint
  | UnauthorizedOperation
  | TokenFrozen
  | NumericOverflow
  deriving DecidableEq

/-- Failure of a wale_token instruction: a program error code, an Anchor
account `constraint` rejection, or a failure of the delegated SPL token
CPI propagated by the `?` operator. -/
inductive ProgErr where
  | program (e : ErrorCode)
  | constraintViolation
  | externalCallFailed
  deriving DecidableEq

/-- Token metadata and supply state (wale_token.rs `TokenInfo`). -/
structure TokenInfo where
  name : Bytes
  symbol : Bytes
  uri : Bytes
  decimals : Nat
  authority : Pubkey
  mint : Pubkey
  created_at : Int
  total_supply : Nat
  circulating_supply : Nat
  is_frozen : Bool
  deriving DecidableEq

/-- Event emitted by initialize_token (wale_token.rs `TokenInitializedEvent`). -/
structure TokenInitEvent where
  mint : Pubkey
  authority : Pubkey
  name : Bytes
  symbol : Bytes
  decimals : Nat
  deriving DecidableEq

/-- Event emitted by mint_tokens (wale_token.rs `TokensMintedEvent`). -/
structure TokensMintedEvent where
  mint : Pubkey
  destination : Pubkey
  amount : Nat
  total_supply : Nat
  deriving DecidableEq

/-- Event emitted by burn_tokens (wale_token.rs `TokensBurnedEvent`). -/
structure TokensBurnedEvent where
  mint : Pubkey
  source : Pubkey
  amount : Nat
  circulating_supply : Nat
  deriving DecidableEq

/-- Event emitted by set_freeze_state (wale_token.rs
`TokenFreezeStateChangedEvent`). -/
structure TokenFreezeStateChangedEvent where
  mint : Pubkey
  is_frozen : Bool
  deriving DecidableEq

/-- Event emitted by transfer_authority (wale_token.rs
`AuthorityTransferredEvent`). -/
structure AuthorityTransferredEvent where
  mint : Pubkey
  old_authority : Pubkey
  new_authority : Pubkey
  deriving DecidableEq

/-- TokenInfo::space from wale_token.rs, verbatim: fixed-size fields
plus the three strings at their declared maxima. -/
def TokenInfo.space : Nat :=
  let fixed_size := 8 +    -- Discriminator
      1 +                  -- Decimals
      32 +                 -- Authority pubkey
      32 +                 -- Mint pubkey
      8 +                  -- Created timestamp
      8 +                  -- Total supply
      8 +                  -- Circulating supply
      1                    -- Is frozen
  let variable_size := 4 + 50 +  -- name (String with max 50 chars)
      4 + 10 +             -- symbol (String with max 10 chars)
      4 + 200              -- uri (String with max 200 chars)
  fixed_size + variable_size

/-- initialize_token handler (wale_token.rs lines 12-42): stores the
metadata as given — there is no length validation — zeroes both supply
counters, clears the freeze flag and emits the TokenInitialized event. -/
def init_token (authorityKey mintKey : Pubkey)
    (name symbol uri : Bytes) (decimals : Nat) (now : Int) :
    Except ProgErr (TokenInfo × TokenInitEvent) :=
  let token_info : TokenInfo :=
    { name := name
      symbol := symbol
      uri := uri
      decimals := decimals
      authority := authorityKey
      mint := mintKey
      created_at := now
      total_supply := 0
      circulating_supply := 0
      is_frozen := false }
  .ok (token_info,
    { mint := token_info.mint
      authority := token_info.authority
      name := token_info.name
      symbol := token_info.symbol
      decimals := token_info.decimals })

/-- mint_tokens handler (wale_token.rs lines 45-86): authority check,
freeze check, delegated SPL mint_to CPI (outcome abstracted as
`cpiOk`), then checked addition into both supply counters. -/
def mint_tokens (signer destination : Pubkey) (cpiOk : Bool)
    (token_info : TokenInfo) (amount : Nat) :
    Except ProgErr (TokenInfo × TokensMintedEvent) :=
  if signer ≠ token_info.authority then .error (.program .UnauthorizedMint)
  else if token_info.is_frozen then .error (.program .TokenFrozen)
  else if !cpiOk then .error .externalCallFailed
  else
    match checked_add token_info.total_supply amount with
    | none => .error (.program .NumericOverflow)
    | some ts =>
      match checked_add token_info.circulating_supply amount with
      | none => .error (.program .NumericOverflow)
      | some cs =>
        let t2 := { token_info with total_supply := ts, circulating_supply := cs }
        .ok (t2,
          { mint := t2.mint
            destination := destination
            amount := amount
            total_supply := t2.total_supply })

/-- burn_tokens handler (wale_token.rs lines 89-119) together with the
Anchor constraint `source.owner == owner.key()`: no authority check and
no freeze check; delegated SPL burn CPI, then checked subtraction from
circulating_supply only. `srcOwner` is the owner field of the source
token account, `src` its address. -/
def burn_tokens (owner srcOwner src : Pubkey) (cpiOk : Bool)
    (token_info : TokenInfo) (amount : Nat) :
    Except ProgErr (TokenInfo × TokensBurnedEvent) :=
  if srcOwner ≠ owner then .error .constraintViolation
  else if !cpiOk then .error .externalCallFailed
  else
    match checked_sub token_info.circulating_supply amount with
    | none => .error (.program .NumericOverflow)
    | some cs =>
      let t2 := { token_info with circulating_supply := cs }
      .ok (t2,
        { mint := t2.mint
          source := src
          amount := amount
          circulating_supply := t2.circulating_supply })

/-- set_freeze_state handler (wale_token.rs lines 122-143). -/
def set_freeze_state (signer : Pubkey) (token_info : TokenInfo)
    (is_frozen : Bool) :
    Except ProgErr (TokenInfo × TokenFreezeStateChangedEvent) :=
  if signer ≠ token_info.authority then .error (.program .UnauthorizedOperation)
  else
    .ok ({ token_info with is_frozen := is_frozen },
      { mint := token_info.mint, is_frozen := is_frozen })

/-- transfer_authority handler (wale_token.rs lines 146-171). -/
def transfer_authority (signer : Pubkey) (token_info : TokenInfo)
    (new_authority : Pubkey) :
    Except ProgErr (TokenInfo × AuthorityTransferredEvent) :=
  if signer ≠ token_info.authority then .error (.program .UnauthorizedOperation)
  else
    .ok ({ token_info with authority := new_authority },
      { mint := token_info.mint
        old_authority := token_info.authority
        new_authority := new_authority })

/-- The committed token state after a mint_tokens call: the new state on
success, the unchanged pre-state on any error (host rollback). -/
def mint_apply (signer destination : Pubkey) (cpiOk : Bool)
    (token_info : TokenInfo) (amount : Nat) : TokenInfo :=
  match mint_tokens signer destination cpiOk token_info amount with
  | .ok (t2, _) => t2
  | .error _ => token_info

/-- One invocation of any wale_token supply-touching instruction,
with its caller-context inputs. -/
inductive TokenOp where
  | mintOp (signer destination : Pubkey) (cpiOk : Bool) (amount : Nat)
  | burnOp (owner srcOwner src : Pubkey) (cpiOk : Bool) (amount : Nat)
  | freezeOp (signer : Pubkey) (frozen : Bool)
  | authOp (signer : Pubkey) (newAuthority : Pubkey)

/-- The committed token state after one instruction: the new state on
success, the unchanged pre-state on any error (host rollback). -/
def applyTokenOp (token_info : TokenInfo) : TokenOp → TokenInfo
  | .mintOp s d c a =>
    match mint_tokens s d c token_info a with
    | .ok (t2, _) => t2
    | .error _ => token_info
  | .burnOp o so src c a =>
    match burn_tokens o so src c token_info a with
    | .ok (t2, _) => t2
    | .error _ => token_info
  | .freezeOp s b =>
    match set_freeze_state s token_info b with
    | .ok (t2, _) => t2
    | .error _ => token_info
  | .authOp s n =>
    match transfer_authority s token_info n with
    | .ok (t2, _) => t2
    | .error _ => token_info

/-- The committed token state after a sequence of instructions. -/
def applyTokenOps (token_info : TokenInfo) (ops : List TokenOp) : TokenInfo :=
  ops.foldl applyTokenOp token_info

end Wale

/-!
Specification-side layout sizes for claim C1.  These definitions
transcribe the claim's own words — each fixed-size field at its exact
fixed width, each variable-length field as a 4-byte length prefix plus
its actual length when the claim says the field is fixed at creation
(template_id, task_id, inputs_hash) or its declared maximum when the
claim says the field can be rewritten later — so they can be compared
against the space functions taken from the source.  Fields appear in
declaration order; the status enum field uses the 4-byte width the
source reserves for it.
-/

/-- Byte size of a template record's encoded layout as claim C1 states
it: discriminator 8; template_id 4 + actual; template_name 4 + 100;
template_version 4 + 20; category 4 + 20; creator 32; metadata
4 + 1024; created_at 8; updated_at 8; usage_count 8; is_active 1;
bump 1. -/
def specTemplateLayoutSize (t : Mcp.TemplateAccount) : Nat :=
  8 + (4 + t.template_id.length) + (4 + 100) + (4 + 20) + (4 + 20) + 32 +
    (4 + 1024) + 8 + 8 + 8 + 1 + 1

/-- Byte size of an execution record's encoded layout as claim C1
states it: discriminator 8; task_id 4 + actual; template 32; user 32;
inputs_hash 4 + actual (the claim puts inputs_hash in the
fixed-at-creation group); outputs_hash 4 + 64; status 4; started_at 8;
completed_at 8; bump 1. -/
def specExecutionLayoutSize (e : Mcp.ExecutionAccount) : Nat :=
  8 + (4 + e.task_id.length) + 32 + 32 + (4 + e.inputs_hash.length) +
    (4 + 64) + 4 + 8 + 8 + 1

/-- Byte size of an execution record's encoded layout as amended for
claim C1: identical to `specExecutionLayoutSize` except that
inputs_hash contributes its declared maximum of 64 bytes (which is
what ExecutionAccount::space reserves), not its actual length. -/
def specExecutionLayoutSizeAmended (e : Mcp.ExecutionAccount) : Nat :=
  8 + (4 + e.task_id.length) + 32 + 32 + (4 + 64) +
    (4 + 64) + 4 + 8 + 8 + 1

/-- Byte size of a token info record's encoded layout as claim C1
states it: discriminator 8; name 4 + 50; symbol 4 + 10; uri 4 + 200;
decimals 1; authority 32; mint 32; created_at 8; total_supply 8;
circulating_supply 8; is_frozen 1. -/
def specTokenLayoutSize : Nat :=
  8 + (4 + 50) + (4 + 10) + (4 + 200) + 1 + 32 + 32 + 8 + 8 + 8 + 1

/-- A concrete, fully valid execution record (every variable-length
field within its declared maximum) with an inputs_hash shorter than
64 bytes. -/
def execSample : Mcp.ExecutionAccount :=
  { task_id := [7]
    template := 1
    user := 2
    inputs_hash := []
    outputs_hash := []
    status := .InProgress
    started_at := 0
    completed_at := 0
    bumps := ⟨0⟩ }

/-!
## Claim C1 — capacity accounting
-/

/-- C1 counterexample: the claim puts inputs_hash in the group that
contributes its actual length, but ExecutionAccount::space reserves the
declared maximum (4 + 64) for it.  `execSample` is a valid record
(every variable-length field within its maximum) whose inputs_hash is
empty, and the capacity the source computes differs from the claimed
layout size (by the 64 reserved bytes). -/
theorem c1_space_counterexample :
    execSample.task_id.length ≤ 64 ∧ execSample.inputs_hash.length ≤ 64 ∧
    execSample.outputs_hash.length ≤ 64 ∧
    Mcp.ExecutionAccount.space execSample.task_id ≠ specExecutionLayoutSize execSample := by
  decide

/-- C1 (amended): the capacity returned by the three space functions
equals the encoded-layout byte size in which each fixed-size field
contributes its exact width and each variable-length field contributes
a 4-byte length prefix plus its actual length when fixed at creation
(template_id, task_id) or its declared maximum when it can be
rewritten later (template_name, template_version, category, metadata,
outputs_hash, token name/symbol/uri) — and also, amended, for
inputs_hash, which the source reserves at its maximum of 64 bytes
even though it is fixed at creation. -/
theorem c1_space_matches_layout (t : Mcp.TemplateAccount)
    (e : Mcp.ExecutionAccount) :
    Mcp.TemplateAccount.space t.template_id = specTemplateLayoutSize t ∧
    Mcp.ExecutionAccount.space e.task_id = specExecutionLayoutSizeAmended e ∧
    Wale.TokenInfo.space = specTokenLayoutSize := by
  refine ⟨?_, ?_, ?_⟩ <;>
    simp [Mcp.TemplateAccount.space, specTemplateLayoutSize,
      Mcp.ExecutionAccount.space, specExecutionLayoutSizeAmended,
      Wale.TokenInfo.space, specTokenLayoutSize] <;>
    omega

/-!
## Token-supply helper lemmas
-/

/-- A successful mint adds the amount to both supply counters (and only
to them), and both checked additions were in range. -/
theorem mint_tokens_ok_eq (s d : Pubkey) (c : Bool) (t : Wale.TokenInfo)
    (a : Nat) (t2 : Wale.TokenInfo) (ev : Wale.TokensMintedEvent)
    (h : Wale.mint_tokens s d c t a = .ok (t2, ev)) :
    t2 = { t with total_supply := t.total_supply + a,
                  circulating_supply := t.circulating_supply + a } ∧
    t.total_supply + a < u64Size ∧ t.circulating_supply + a < u64Size := by
  unfold Wale.mint_tokens checked_add at h
  repeat' split at h
  all_goals simp_all
  all_goals omega

/-- A successful burn subtracts the amount from circulating_supply only,
and the subtraction did not underflow. -/
theorem burn_tokens_ok_eq (o so src : Pubkey) (c : Bool)
    (t : Wale.TokenInfo) (a : Nat) (t2 : Wale.TokenInfo)
    (ev : Wale.TokensBurnedEvent)
    (h : Wale.burn_tokens o so src c t a = .ok (t2, ev)) :
    t2 = { t with circulating_supply := t.circulating_supply - a } ∧
    a ≤ t.circulating_supply := by
  unfold Wale.burn_tokens checked_sub at h
  repeat' split at h
  all_goals simp_all

/-- The supply invariant of the specification. -/
def supplyInv (t : Wale.TokenInfo) : Prop :=
  t.circulating_supply ≤ t.total_supply

/-- Every single committed token instruction preserves the supply
invariant. -/
theorem supplyInv_applyTokenOp (t : Wale.TokenInfo) (op : Wale.TokenOp)
    (h : supplyInv t) : supplyInv (Wale.applyTokenOp t op) := by
  unfold supplyInv at h ⊢
  cases op with
  | mintOp s d c a =>
    simp only [Wale.applyTokenOp]
    split
    · rename_i t2 ev heq
      obtain ⟨ht2, h1, h2⟩ := mint_tokens_ok_eq s d c t a t2 ev heq
      subst ht2
      simp only
      omega
    · exact h
  | burnOp o so src c a =>
    simp only [Wale.applyTokenOp]
    split
    · rename_i t2 ev heq
      obtain ⟨ht2, hle⟩ := burn_tokens_ok_eq o so src c t a t2 ev heq
      subst ht2
      simp only
      omega
    · exact h
  | freezeOp s b =>
    simp only [Wale.applyTokenOp, Wale.set_freeze_state]
    split_ifs <;> simpa using h
  | authOp s n =>
    simp only [Wale.applyTokenOp, Wale.transfer_authority]
    split_ifs <;> simpa using h

/-- The supply invariant is preserved by any committed sequence of
token instructions. -/
theorem supplyInv_applyTokenOps (t : Wale.TokenInfo) (ops : List Wale.TokenOp)
    (h : supplyInv t) : supplyInv (Wale.applyTokenOps t ops) := by
  induction ops generalizing t with
  | nil => exact h
  | cons op ops ih =>
    exact ih (Wale.applyTokenOp t op) (supplyInv_applyTokenOp t op h)

/-!
## Concrete sample values used by witnesses
-/

/-- A token state with both supply counters one below the u64 maximum. -/
def tiNearMax : Wale.TokenInfo :=
  { name := [], symbol := [], uri := [], decimals := 9, authority := 1,
    mint := 2, created_at := 5, total_supply := u64Size - 1,
    circulating_supply := u64Size - 1, is_frozen := false }

/-- The token state produced by init_token 1 2 [] [] [] 9 5. -/
def tiInitSample : Wale.TokenInfo :=
  { name := [], symbol := [], uri := [], decimals := 9, authority := 1,
    mint := 2, created_at := 5, total_supply := 0,
    circulating_supply := 0, is_frozen := false }

/-- The event produced by init_token 1 2 [] [] [] 9 5. -/
def evInitSample : Wale.TokenInitEvent :=
  { mint := 2, authority := 1, name := [], symbol := [], decimals := 9 }

/-- A sample instruction sequence: a mint, a burn and a freeze. -/
def opsSample : List Wale.TokenOp :=
  [.mintOp 1 3 true 100, .burnOp 4 4 6 true 40, .freezeOp 1 true]

/-- A frozen token state with nonzero supplies. -/
def tiFrozenSample : Wale.TokenInfo :=
  { name := [], symbol := [], uri := [], decimals := 9, authority := 1,
    mint := 2, created_at := 5, total_supply := 100,
    circulating_supply := 50, is_frozen := true }

/-!
## Claim C2 — mint overflow is rejected atomically
-/

/-- C2: when the authority mints while unfrozen and the delegated CPI
succeeds, an amount that would overflow either u64 supply counter makes
mint_tokens fail with NumericOverflow, and the committed token state —
every field, both supply counters included — is the unchanged
pre-state. -/
theorem c2_mint_overflow_rejected (s d : Pubkey) (ti : Wale.TokenInfo)
    (amount : Nat) (ha : s = ti.authority) (hf : ti.is_frozen = false)
    (hov : u64Size ≤ ti.total_supply + amount ∨
           u64Size ≤ ti.circulating_supply + amount) :
    Wale.mint_tokens s d true ti amount = .error (.program .NumericOverflow) ∧
    Wale.mint_apply s d true ti amount = ti := by
  have h1 : Wale.mint_tokens s d true ti amount
      = .error (.program .NumericOverflow) := by
    unfold Wale.mint_tokens checked_add
    repeat' split
    all_goals simp_all
    all_goals omega
  exact ⟨h1, by unfold Wale.mint_apply; rw [h1]⟩

/-- C2 witness: at the concrete near-max state, minting 1 more fails
with NumericOverflow and commits nothing. -/
theorem c2_mint_overflow_rejected_witness :
    (1 : Pubkey) = tiNearMax.authority ∧ tiNearMax.is_frozen = false ∧
    (u64Size ≤ tiNearMax.total_supply + 1 ∨
     u64Size ≤ tiNearMax.circulating_supply + 1) ∧
    (Wale.mint_tokens 1 3 true tiNearMax 1 = .error (.program .NumericOverflow) ∧
     Wale.mint_apply 1 3 true tiNearMax 1 = tiNearMax) :=
  ⟨rfl, rfl, Or.inl (by norm_num [tiNearMax, u64Size]),
   c2_mint_overflow_rejected 1 3 tiNearMax 1 rfl rfl
     (Or.inl (by norm_num [tiNearMax, u64Size]))⟩

/-!
## Claim C3 — supply invariant
-/

/-- C3: starting from any init_token state, after any committed sequence
of mint, burn, freeze and authority-transfer instructions, the supply
counters satisfy 0 ≤ circulating_supply ≤ total_supply. -/
theorem c3_supply_invariant (authorityKey mintKey : Pubkey)
    (name symbol uri : Bytes) (decimals : Nat) (now : Int)
    (ti : Wale.TokenInfo) (ev : Wale.TokenInitEvent)
    (hinit : Wale.init_token authorityKey mintKey name symbol uri decimals now
      = .ok (ti, ev))
    (ops : List Wale.TokenOp) :
    0 ≤ (Wale.applyTokenOps ti ops).circulating_supply ∧
    (Wale.applyTokenOps ti ops).circulating_supply
      ≤ (Wale.applyTokenOps ti ops).total_supply := by
  refine ⟨Nat.zero_le _, ?_⟩
  have h0 : supplyInv ti := by
    unfold Wale.init_token at hinit
    injection hinit with h
    injection h with h1 h2
    rw [← h1]
    unfold supplyInv
    exact Nat.le_refl 0
  exact supplyInv_applyTokenOps ti ops h0

/-- C3 witness: a concrete initialization followed by a mint, a burn
and a freeze keeps the invariant. -/
theorem c3_supply_invariant_witness :
    Wale.init_token 1 2 [] [] [] 9 5 = .ok (tiInitSample, evInitSample) ∧
    (0 ≤ (Wale.applyTokenOps tiInitSample opsSample).circulating_supply ∧
     (Wale.applyTokenOps tiInitSample opsSample).circulating_supply
       ≤ (Wale.applyTokenOps tiInitSample opsSample).total_supply) :=
  ⟨rfl, c3_supply_invariant 1 2 [] [] [] 9 5 tiInitSample evInitSample rfl opsSample⟩

/-!
## Claim C8 — burn is not gated by freeze
-/

/-- C8: on a frozen token, burn_tokens still succeeds whenever the
source-owner constraint, the delegated CPI and the checked subtraction
succeed; the result decreases circulating_supply by the burned amount
and leaves total_supply (and every other field) unchanged. -/
theorem c8_burn_unaffected_by_freeze (owner srcOwner src : Pubkey)
    (ti : Wale.TokenInfo) (amount : Nat)
    (hfz : ti.is_frozen = true) (ho : srcOwner = owner)
    (hle : amount ≤ ti.circulating_supply) :
    Wale.burn_tokens owner srcOwner src true ti amount =
      .ok ({ ti with circulating_supply := ti.circulating_supply - amount },
        { mint := ti.mint, source := src, amount := amount,
          circulating_supply := ti.circulating_supply - amount }) := by
  unfold Wale.burn_tokens checked_sub
  rw [if_neg (by simp [ho])]
  simp [hle]

/-- C8 witness: burning 7 of 50 circulating units on a concrete frozen
token succeeds and only circulating_supply changes. -/
theorem c8_burn_unaffected_by_freeze_witness :
    tiFrozenSample.is_frozen = true ∧ (4 : Pubkey) = 4 ∧
    (7 : Nat) ≤ tiFrozenSample.circulating_supply ∧
    Wale.burn_tokens 4 4 9 true tiFrozenSample 7 =
      .ok ({ tiFrozenSample with
              circulating_supply := tiFrozenSample.circulating_supply - 7 },
        { mint := tiFrozenSample.mint, source := 9, amount := 7,
          circulating_supply := tiFrozenSample.circulating_supply - 7 }) :=
  ⟨rfl, rfl, by decide,
   c8_burn_unaffected_by_freeze 4 4 9 tiFrozenSample 7 rfl rfl (by decide)⟩

/-!
## Claim C9 — the circulating-supply overflow check is unreachable
-/

/-- C9: under the entry invariant circulating_supply ≤ total_supply,
whenever the checked addition on total_supply succeeds the one on
circulating_supply succeeds too, so a NumericOverflow error out of
mint_tokens can only come from the total_supply addition. -/
theorem c9_circ_overflow_unreachable (s d : Pubkey) (cpiOk : Bool)
    (ti : Wale.TokenInfo) (amount : Nat)
    (hinv : ti.circulating_supply ≤ ti.total_supply) :
    ((checked_add ti.total_supply amount).isSome →
      (checked_add ti.circulating_supply amount).isSome) ∧
    (Wale.mint_tokens s d cpiOk ti amount = .error (.program .NumericOverflow) →
      u64Size ≤ ti.total_supply + amount) := by
  constructor
  · intro hsome
    unfold checked_add at hsome ⊢
    split at hsome
    · rw [if_pos (by omega)]
      simp
    · simp at hsome
  · intro herr
    unfold Wale.mint_tokens checked_add at herr
    repeat' split at herr
    all_goals simp_all
    all_goals omega

/-- C9 witness: at the concrete zero-supply state the implication holds
for amount 1. -/
theorem c9_circ_overflow_unreachable_witness :
    tiInitSample.circulating_supply ≤ tiInitSample.total_supply ∧
    (((checked_add tiInitSample.total_supply 1).isSome →
       (checked_add tiInitSample.circulating_supply 1).isSome) ∧
     (Wale.mint_tokens 1 3 true tiInitSample 1
        = .error (.program .NumericOverflow) →
       u64Size ≤ tiInitSample.total_supply + 1)) :=
  ⟨Nat.le_refl 0, c9_circ_overflow_unreachable 1 3 true tiInitSample 1 (Nat.le_refl 0)⟩

/-!
## Execution-ledger helper lemmas
-/

/-- What a successful record_execution call determines about the new
execution record and the updated template. -/
theorem record_execution_ok_fields (tid ihash ohash : Bytes)
    (st : Mcp.ExecutionStatus) (tk u : Pubkey) (t : Mcp.TemplateAccount)
    (now : Int) (bump : Nat) (e : Mcp.ExecutionAccount)
    (t2 : Mcp.TemplateAccount) (ev : Mcp.ExecutionRecordedEvent)
    (h : Mcp.record_execution tid ihash ohash st tk u t now bump = .ok (e, t2, ev)) :
    e.status = st ∧
    e.completed_at = (if st = .Success ∨ st = .Failure then now else 0) ∧
    t2 = { t with usage_count := (t.usage_count + 1) % u64Size,
                  updated_at := now } := by
  unfold Mcp.record_execution at h
  repeat' split at h
  all_goals simp_all
  all_goals (obtain ⟨he, ht2, hev⟩ := h; subst he; subst ht2; subst hev; simp_all)

/-- What a successful update_execution call determines about the new
execution record. -/
theorem update_execution_ok_fields (signer : Pubkey)
    (e : Mcp.ExecutionAccount) (st : Mcp.ExecutionStatus)
    (oh : Option Bytes) (now : Int) (e2 : Mcp.ExecutionAccount)
    (ev : Mcp.ExecutionUpdatedEvent)
    (h : Mcp.update_execution signer e st oh now = .ok (e2, ev)) :
    e.status = .InProgress ∧ e2.status = st ∧
    e2.completed_at
      = (if st = .Success ∨ st = .Failure then now else e.completed_at) := by
  unfold Mcp.update_execution at h
  repeat' split at h
  all_goals simp_all
  all_goals (obtain ⟨he2, hev⟩ := h; subst he2; subst hev; simp_all)

/-- The completion-timestamp invariant of the specification. -/
def execInv (e : Mcp.ExecutionAccount) : Prop :=
  e.completed_at = 0 ↔ e.status = .InProgress

/-- One committed update_execution call preserves the
completion-timestamp invariant as long as the clock is nonzero. -/
theorem execInv_applyUpd (e : Mcp.ExecutionAccount) (c : Mcp.UpdCall)
    (hnow : c.now ≠ 0) (h : execInv e) : execInv (Mcp.applyUpd e c) := by
  unfold Mcp.applyUpd
  split
  · rename_i e2 ev heq
    obtain ⟨hip, hst, hca⟩ := update_execution_ok_fields _ _ _ _ _ _ _ heq
    unfold execInv at h ⊢
    rw [hst, hca]
    by_cases h3 : c.status = .Success ∨ c.status = .Failure
    · rcases h3 with h3 | h3 <;> simp [h3, hnow]
    · have h5 : c.status = .InProgress := by cases hs : c.status <;> simp_all
      simp [h5, h.mpr hip]
  · exact h

/-- A committed sequence of update_execution calls with nonzero clocks
preserves the completion-timestamp invariant. -/
theorem execInv_foldl (cs : List Mcp.UpdCall) :
    (∀ c ∈ cs, c.now ≠ 0) → ∀ e, execInv e →
    execInv (cs.foldl Mcp.applyUpd e) := by
  induction cs with
  | nil => intro _ e he; simpa using he
  | cons c cs2 ih =>
    intro hcs e he
    simp only [List.foldl_cons]
    exact ih (fun x hx => hcs x (List.mem_cons_of_mem c hx)) _
      (execInv_applyUpd e c (hcs c (List.mem_cons_self c cs2)) he)

/-- A valid record_execution call bumps the committed template
usage_count by exactly one (wrapping u64 increment). -/
theorem applyRecord_usage (t : Mcp.TemplateAccount) (c : Mcp.RecordCall)
    (hc : Mcp.validRecordCall c) :
    (Mcp.applyRecord t c).usage_count = (t.usage_count + 1) % u64Size := by
  obtain ⟨h1, h2, h3⟩ := hc
  unfold Mcp.applyRecord Mcp.record_execution
  rw [if_neg (by omega), if_neg (by omega), if_neg (by omega)]

/-- Folding valid record_execution calls adds their number to
usage_count, exactly, below the u64 bound. -/
theorem foldl_applyRecord_usage (cs : List Mcp.RecordCall) :
    ∀ t : Mcp.TemplateAccount, (∀ c ∈ cs, Mcp.validRecordCall c) →
    t.usage_count + cs.length < u64Size →
    (cs.foldl Mcp.applyRecord t).usage_count = t.usage_count + cs.length := by
  induction cs with
  | nil => intro t _ _; simp
  | cons c cs2 ih =>
    intro t hv hn
    simp only [List.foldl_cons, List.length_cons] at hn ⊢
    have hu : (Mcp.applyRecord t c).usage_count = t.usage_count + 1 := by
      rw [applyRecord_usage t c (hv c (List.mem_cons_self c cs2))]
      exact Nat.mod_eq_of_lt (by omega)
    rw [ih (Mcp.applyRecord t c)
      (fun x hx => hv x (List.mem_cons_of_mem c hx)) (by omega : (Mcp.applyRecord t c).usage_count + cs2.length < u64Size)]
    omega

/-- upd_name cannot change usage_count. -/
theorem upd_name_usage (t : Mcp.TemplateAccount) (o : Option Bytes)
    (t2 : Mcp.TemplateAccount) (h : Mcp.upd_name t o = .ok t2) :
    t2.usage_count = t.usage_count := by
  cases o with
  | none =>
    simp only [Mcp.upd_name, Except.ok.injEq] at h
    subst h
    rfl
  | some v =>
    simp only [Mcp.upd_name] at h
    split at h
    · simp at h
    · simp only [Except.ok.injEq] at h
      subst h
      rfl

/-- upd_version cannot change usage_count. -/
theorem upd_version_usage (t : Mcp.TemplateAccount) (o : Option Bytes)
    (t2 : Mcp.TemplateAccount) (h : Mcp.upd_version t o = .ok t2) :
    t2.usage_count = t.usage_count := by
  cases o with
  | none =>
    simp only [Mcp.upd_version, Except.ok.injEq] at h
    subst h
    rfl
  | some v =>
    simp only [Mcp.upd_version] at h
    split at h
    · simp at h
    · simp only [Except.ok.injEq] at h
      subst h
      rfl

/-- upd_metadata cannot change usage_count. -/
theorem upd_metadata_usage (t : Mcp.TemplateAccount) (o : Option Bytes)
    (t2 : Mcp.TemplateAccount) (h : Mcp.upd_metadata t o = .ok t2) :
    t2.usage_count = t.usage_count := by
  cases o with
  | none =>
    simp only [Mcp.upd_metadata, Except.ok.injEq] at h
    subst h
    rfl
  | some v =>
    simp only [Mcp.upd_metadata] at h
    split at h
    · simp at h
    · simp only [Except.ok.injEq] at h
      subst h
      rfl

/-- A successful update_template call, with any combination of
optional arguments, leaves usage_count unchanged. -/
theorem update_template_usage (signer : Pubkey) (t : Mcp.TemplateAccount)
    (tn tv md : Option Bytes) (ia : Option Bool) (now : Int)
    (t2 : Mcp.TemplateAccount) (ev : Mcp.TemplateUpdatedEvent)
    (h : Mcp.update_template signer t tn tv md ia now = .ok (t2, ev)) :
    t2.usage_count = t.usage_count := by
  unfold Mcp.update_template at h
  split at h
  · simp at h
  · split at h
    · simp at h
    · rename_i t1 heq1
      split at h
      · simp at h
      · rename_i t3 heq2
        split at h
        · simp at h
        · rename_i t4 heq3
          simp only [Except.ok.injEq, Prod.mk.injEq] at h
          obtain ⟨h5, -⟩ := h
          rw [← h5]
          have e4 : (Mcp.upd_active t4 ia).usage_count = t4.usage_count := by
            cases ia <;> simp [Mcp.upd_active]
          simp only
          rw [e4, upd_metadata_usage t3 md t4 heq3,
            upd_version_usage t1 tv t3 heq2, upd_name_usage t tn t1 heq1]

/-!
## Concrete mcp sample values used by witnesses
-/

/-- A sample template account with creator 7 and usage_count 0. -/
def tmplSample : Mcp.TemplateAccount :=
  { template_id := [1], template_name := [], template_version := [],
    category := [], creator := 7, metadata := [], created_at := 1,
    updated_at := 1, usage_count := 0, is_active := true, bumps := ⟨255⟩ }

/-- The execution account produced by
record_execution [2] [] [] InProgress 11 7 tmplSample 9 254. -/
def execFromRecordSample : Mcp.ExecutionAccount :=
  { task_id := [2], template := 11, user := 7, inputs_hash := [],
    outputs_hash := [], status := .InProgress, started_at := 9,
    completed_at := 0, bumps := ⟨254⟩ }

/-- The template account produced by the same record_execution call. -/
def tmplAfterRecordSample : Mcp.TemplateAccount :=
  { tmplSample with usage_count := 1, updated_at := 9 }

/-- The event produced by the same record_execution call. -/
def recEvSample : Mcp.ExecutionRecordedEvent :=
  { task_id := [2], template_id := [1], user := 7,
    status := .InProgress, timestamp := 9 }

/-- A sample update_execution call closing the execution as Success. -/
def updCallsSample : List Mcp.UpdCall :=
  [⟨7, .Success, some [3], 12⟩]

/-- A sample execution account already in a terminal status. -/
def execDoneSample : Mcp.ExecutionAccount :=
  { task_id := [2], template := 11, user := 7, inputs_hash := [],
    outputs_hash := [3], status := .Success, started_at := 9,
    completed_at := 12, bumps := ⟨254⟩ }

/-- A sample valid record_execution call context. -/
def recCallSample : Mcp.RecordCall :=
  { task_id := [2], inputs_hash := [], outputs_hash := [],
    status := .InProgress, templateKey := 11, user := 7, now := 9,
    bump := 254 }

/-!
## Claim C4 — completed_at = 0 iff status = InProgress
-/

/-- C4: record_execution stamps completed_at with the clock exactly
when the initial status is terminal (else 0), and — provided every
clock value involved is nonzero, as host wall-clock timestamps are —
the invariant completed_at = 0 ↔ status = InProgress holds on the
record it creates and after any sequence of committed update_execution
calls on it. -/
theorem c4_completed_at_iff_in_progress (tid ihash ohash : Bytes)
    (st : Mcp.ExecutionStatus) (tk u : Pubkey) (t : Mcp.TemplateAccount)
    (now : Int) (bump : Nat) (e : Mcp.ExecutionAccount)
    (t2 : Mcp.TemplateAccount) (ev : Mcp.ExecutionRecordedEvent)
    (hrec : Mcp.record_execution tid ihash ohash st tk u t now bump
      = .ok (e, t2, ev))
    (hnow : now ≠ 0) (cs : List Mcp.UpdCall)
    (hcs : ∀ c ∈ cs, c.now ≠ 0) :
    (e.completed_at = if st = .Success ∨ st = .Failure then now else 0) ∧
    ((cs.foldl Mcp.applyUpd e).completed_at = 0 ↔
     (cs.foldl Mcp.applyUpd e).status = .InProgress) := by
  obtain ⟨hst, hca, -⟩ :=
    record_execution_ok_fields tid ihash ohash st tk u t now bump e t2 ev hrec
  refine ⟨hca, ?_⟩
  have h0 : execInv e := by
    unfold execInv
    rw [hst, hca]
    by_cases h3 : st = .Success ∨ st = .Failure
    · rcases h3 with h3 | h3 <;> simp [h3, hnow]
    · have h5 : st = .InProgress := by cases st <;> simp_all
      simp [h5]
  exact execInv_foldl cs hcs e h0

/-- C4 witness: a concrete in-progress record, created at clock 9 and
closed as Success at clock 12, keeps the invariant. -/
theorem c4_completed_at_iff_in_progress_witness :
    Mcp.record_execution [2] [] [] .InProgress 11 7 tmplSample 9 254
      = .ok (execFromRecordSample, tmplAfterRecordSample, recEvSample) ∧
    (9 : Int) ≠ 0 ∧ (∀ c ∈ updCallsSample, c.now ≠ 0) ∧
    ((execFromRecordSample.completed_at =
        if (Mcp.ExecutionStatus.InProgress = .Success ∨
            Mcp.ExecutionStatus.InProgress = .Failure) then (9 : Int) else 0) ∧
     ((updCallsSample.foldl Mcp.applyUpd execFromRecordSample).completed_at = 0 ↔
      (updCallsSample.foldl Mcp.applyUpd execFromRecordSample).status
        = .InProgress)) :=
  ⟨rfl, by decide, by decide,
   c4_completed_at_iff_in_progress [2] [] [] .InProgress 11 7 tmplSample 9 254
     execFromRecordSample tmplAfterRecordSample recEvSample rfl
     (by decide) updCallsSample (by decide)⟩

/-!
## Claim C5 — terminal executions reject updates
-/

/-- C5: on an execution whose status is terminal, update_execution
(called by the record's own user, so that the account constraint
passes) fails with InvalidExecutionStatus — the source's name for the
invalid-transition error — and commits nothing; and whenever
update_execution succeeds, the pre-state status was InProgress. -/
theorem c5_terminal_update_rejected (signer : Pubkey)
    (e : Mcp.ExecutionAccount) (st : Mcp.ExecutionStatus)
    (oh : Option Bytes) (now : Int) (hs : signer = e.user) :
    (e.status ≠ .InProgress →
      Mcp.update_execution signer e st oh now
        = .error (.program .InvalidExecutionStatus) ∧
      Mcp.applyUpd e ⟨signer, st, oh, now⟩ = e) ∧
    (∀ r, Mcp.update_execution signer e st oh now = .ok r →
      e.status = .InProgress) := by
  constructor
  · intro hterm
    have h1 : Mcp.update_execution signer e st oh now
        = .error (.program .InvalidExecutionStatus) := by
      unfold Mcp.update_execution
      rw [if_neg (by simp [hs]), if_pos hterm]
    refine ⟨h1, ?_⟩
    simp only [Mcp.applyUpd]
    rw [h1]
  · intro r hr
    by_contra hne
    unfold Mcp.update_execution at hr
    rw [if_neg (by simp [hs]), if_pos hne] at hr
    simp at hr

/-- C5 witness: the concrete Success-status record rejects a further
update. -/
theorem c5_terminal_update_rejected_witness :
    (7 : Pubkey) = execDoneSample.user ∧
    ((execDoneSample.status ≠ .InProgress →
      Mcp.update_execution 7 execDoneSample .Failure none 20
        = .error (.program .InvalidExecutionStatus) ∧
      Mcp.applyUpd execDoneSample ⟨7, .Failure, none, 20⟩ = execDoneSample) ∧
     (∀ r, Mcp.update_execution 7 execDoneSample .Failure none 20 = .ok r →
      execDoneSample.status = .InProgress)) :=
  ⟨rfl, c5_terminal_update_rejected 7 execDoneSample .Failure none 20 rfl⟩

/-!
## Claim C6 — usage_count accounting
-/

/-- C6: N committed, successful record_execution calls against a
template add exactly N to its usage_count (below the u64 wrap bound),
and update_template — with any combination of its four optional
arguments — never changes usage_count. -/
theorem c6_usage_count_accounting (t : Mcp.TemplateAccount)
    (cs : List Mcp.RecordCall) (hv : ∀ c ∈ cs, Mcp.validRecordCall c)
    (hn : t.usage_count + cs.length < u64Size) :
    (cs.foldl Mcp.applyRecord t).usage_count = t.usage_count + cs.length ∧
    (∀ u : Mcp.TemplateUpdCall,
      (Mcp.applyTemplateUpd t u).usage_count = t.usage_count) := by
  refine ⟨foldl_applyRecord_usage cs t hv hn, ?_⟩
  intro u
  unfold Mcp.applyTemplateUpd
  split
  · rename_i t2 ev heq
    exact update_template_usage u.signer t u.template_name u.template_version
      u.metadata u.is_active u.now t2 ev heq
  · rfl

/-- C6 witness: one concrete valid record_execution call takes
usage_count from 0 to 1, and a concrete update_template call leaves it
untouched. -/
theorem c6_usage_count_accounting_witness :
    (∀ c ∈ [recCallSample], Mcp.validRecordCall c) ∧
    tmplSample.usage_count + [recCallSample].length < u64Size ∧
    (([recCallSample].foldl Mcp.applyRecord tmplSample).usage_count
       = tmplSample.usage_count + [recCallSample].length ∧
     (∀ u : Mcp.TemplateUpdCall,
       (Mcp.applyTemplateUpd tmplSample u).usage_count
         = tmplSample.usage_count)) :=
  ⟨by decide, by decide,
   c6_usage_count_accounting tmplSample [recCallSample] (by decide) (by decide)⟩

/-!
## Claim C7 — token metadata length validation
-/

/-- C7 counterexample: initializing the token with a 51-byte name (one
over the declared maximum of 50) does not fail with any validation
error — the call succeeds and the stored record keeps the oversized
name verbatim. -/
theorem c7_no_length_validation_counterexample :
    Wale.init_token 1 2 (List.replicate 51 0) [] [] 9 5 =
      .ok ({ name := List.replicate 51 0, symbol := [], uri := [],
             decimals := 9, authority := 1, mint := 2, created_at := 5,
             total_supply := 0, circulating_supply := 0, is_frozen := false },
           { mint := 2, authority := 1, name := List.replicate 51 0,
             symbol := [], decimals := 9 }) ∧
    50 < (List.replicate 51 (0 : UInt8)).length :=
  ⟨rfl, by decide⟩

/-- C7 (amended): initialize_token performs no length validation on
name, symbol or uri: for every input it succeeds and stores the three
fields exactly as given; the declared maxima (50/10/200) appear only
in the TokenInfo::space capacity formula, so enforcement, if any, is
left to the fixed account capacity at serialization time, outside this
function. -/
theorem c7_no_length_validation (authorityKey mintKey : Pubkey)
    (name symbol uri : Bytes) (decimals : Nat) (now : Int) :
    ∃ ti ev,
      Wale.init_token authorityKey mintKey name symbol uri decimals now
        = .ok (ti, ev) ∧
      ti.name = name ∧ ti.symbol = symbol ∧ ti.uri = uri :=
  ⟨_, _, rfl, rfl, rfl, rfl⟩

/-!
## Claim C10 — update_template with all arguments absent
-/

/-- C10: an update_template call by the creator with all four optional
arguments absent succeeds, changes nothing but updated_at — which it
sets to the clock — and emits the TemplateUpdated event carrying the
template id, the caller and that timestamp. -/
theorem c10_update_template_all_none (signer : Pubkey)
    (t : Mcp.TemplateAccount) (now : Int) (hs : signer = t.creator) :
    Mcp.update_template signer t none none none none now =
      .ok ({ t with updated_at := now },
        { template_id := t.template_id, updater := signer,
          timestamp := now }) := by
  unfold Mcp.update_template Mcp.upd_name Mcp.upd_version Mcp.upd_metadata
    Mcp.upd_active
  rw [if_neg (by simp [hs])]

/-- C10 witness: the concrete all-absent update on tmplSample at clock
42. -/
theorem c10_update_template_all_none_witness :
    (7 : Pubkey) = tmplSample.creator ∧
    Mcp.update_template 7 tmplSample none none none none 42 =
      .ok ({ tmplSample with updated_at := 42 },
        { template_id := tmplSample.template_id, updater := 7,
          timestamp := 42 }) :=
  ⟨rfl, c10_update_template_all_none 7 tmplSample 42 rfl⟩

end WaleMcp
